import Mathlib

set_option maxRecDepth 40000

/-!
Verification of the SQL Access Guard of this repository against its design
specification.  The definitions below are a shallow embedding of the guard
logic found in `security_utils.py` and `agent/mcp_toolbox_server.py`:
Python strings are `String`/`List Char`, the regex fragments used by the
source (`\b…\b` keyword patterns, `--.*$`, `/\*.*?\*/`,
`customer_name\s*=\s*'([^']+)'`) are embedded as explicit character
scanners with the exact semantics of the source patterns, and each Python
function that returns `(bool, str)` is embedded as a function returning
`Bool × String`.
-/

/-- The single-quote character, written via its code point. -/
def squote : Char := Char.ofNat 39

/-- The single-quote character as a one-character string. -/
def sqS : String := String.singleton squote

/-- Python regex `\w` on the ASCII text handled by the guard:
letters, digits and underscore. -/
def isWordChar (c : Char) : Bool := c.isAlphanum || c == '_'

/-- Python regex `\s` on the ASCII text handled by the guard. -/
def isSpaceChar (c : Char) : Bool := c.isWhitespace

/-- `startsWithChars pat s` holds when `pat` is a prefix of `s`
(Python `str.startswith` at character level). -/
def startsWithChars : List Char → List Char → Bool
  | [], _ => true
  | _ :: _, [] => false
  | p :: ps, c :: cs => p == c && startsWithChars ps cs

/-- `containsSub pat s` holds when `pat` occurs as a contiguous substring
of `s` (Python `pat in s`). -/
def containsSub (pat : List Char) : List Char → Bool
  | [] => startsWithChars pat []
  | c :: cs => startsWithChars pat (c :: cs) || containsSub pat cs

/-- One pass of `re.sub(r'--.*$', '', text, flags=re.MULTILINE)` as a
character state machine: the flag is true while inside a line comment,
whose characters are dropped up to (but not including) the newline. -/
def stripLineAux : Bool → List Char → List Char
  | _, [] => []
  | true, c :: cs => if c = '\n' then c :: stripLineAux false cs else stripLineAux true cs
  | false, c :: cs =>
    if c = '-' ∧ cs.head? = some '-' then stripLineAux true cs
    else c :: stripLineAux false cs

/-- `re.sub(r'--.*$', '', text, flags=re.MULTILINE)`: every line is cut at
its first `--`. -/
def stripLineComments (l : List Char) : List Char := stripLineAux false l

/-- State of the block-comment stripper: outside a comment; having consumed
the `/` of an opener; inside a comment holding the consumed characters in
reverse (so that an unterminated comment is emitted verbatim, as
`re.sub(r'/\*.*?\*/', …)` leaves text without a closing `*/` unchanged);
having consumed the `*` of a closer. -/
inductive BState
  | normal
  | opener (buf : List Char)
  | inside (buf : List Char)
  | closer

/-- One pass of `re.sub(r'/\*.*?\*/', '', text, flags=re.DOTALL)`:
non-greedy removal of each `/* … */` region, scanning left to right
without rescanning, keeping an unterminated trailing `/*` verbatim. -/
def sbcAux : BState → List Char → List Char
  | .normal, [] => []
  | .normal, c :: cs =>
    if c = '/' ∧ cs.head? = some '*' then sbcAux (.opener [c]) cs
    else c :: sbcAux .normal cs
  | .opener buf, [] => buf.reverse
  | .opener buf, c :: cs => sbcAux (.inside (c :: buf)) cs
  | .inside buf, [] => buf.reverse
  | .inside buf, c :: cs =>
    if c = '*' ∧ cs.head? = some '/' then sbcAux .closer cs
    else sbcAux (.inside (c :: buf)) cs
  | .closer, [] => []
  | .closer, _ :: cs => sbcAux .normal cs

/-- `re.sub(r'/\*.*?\*/', '', text, flags=re.DOTALL)`. -/
def stripBlockComments (l : List Char) : List Char := sbcAux .normal l

/-- Python `str.strip()` on the right: drop trailing whitespace. -/
def pyStripRight (l : List Char) : List Char :=
  (l.reverse.dropWhile isSpaceChar).reverse

/-- Python `str.strip()`: drop leading and trailing whitespace. -/
def pyStrip (l : List Char) : List Char :=
  pyStripRight (l.dropWhile isSpaceChar)

/-- `sql_query.upper().strip()` from `validate_query_type`
(`security_utils.py` line 16). -/
def normalizeSql (s : String) : List Char :=
  pyStrip (s.data.map Char.toUpper)

/-- The comment-stripped, upper-cased, trimmed query text that
`validate_query_type` matches its keyword patterns against
(`security_utils.py` lines 16-20). -/
def strippedSql (s : String) : List Char :=
  stripBlockComments (stripLineComments (normalizeSql s))

/-- A token of a compiled keyword pattern: a literal character, or `\s+`
(the source builds each pattern as
`r'\b' + re.escape(keyword).replace(r'\ ', r'\s+') + r'\b'`). -/
inductive PatTok
  | lit (c : Char)
  | ws1

/-- Compile a keyword into its pattern tokens: each space becomes `\s+`,
every other character a literal. -/
def toPat (kw : String) : List PatTok :=
  kw.data.map (fun c => if c = ' ' then PatTok.ws1 else PatTok.lit c)

/-- Match the pattern tokens at the start of `s`, returning the remainder.
`\s+` is matched greedily; since every following token in the source
patterns is a non-space literal, maximal munch is exact. -/
def matchToks : List PatTok → List Char → Option (List Char)
  | [], s => some s
  | PatTok.lit _ :: _, [] => none
  | PatTok.lit c :: ps, x :: xs => if x = c then matchToks ps xs else none
  | PatTok.ws1 :: ps, s =>
    let s2 := s.dropWhile isSpaceChar
    if s2.length < s.length then matchToks ps s2 else none

/-- Python regex `\b` between two (optional) neighbouring characters:
exactly one of the two positions holds a word character. -/
def boundaryB : Option Char → Option Char → Bool
  | none, none => false
  | none, some c => isWordChar c
  | some c, none => isWordChar c
  | some a, some b => xor (isWordChar a) (isWordChar b)

/-- `\b pat \b` anchored at the current position: `prev` is the character
before the position, `lastC` the final literal of the pattern. -/
def kwAt (pat : List PatTok) (lastC : Option Char) (prev : Option Char)
    (s : List Char) : Bool :=
  match matchToks pat s with
  | none => false
  | some rest => boundaryB prev s.head? && boundaryB lastC rest.head?

/-- `re.search` of `\b pat \b`: try every start position left to right. -/
def kwSearchAux (pat : List PatTok) (lastC : Option Char) :
    Option Char → List Char → Bool
  | prev, [] => kwAt pat lastC prev []
  | prev, c :: cs => kwAt pat lastC prev (c :: cs) || kwSearchAux pat lastC (some c) cs

/-- `re.search(r'\b' + re.escape(kw).replace(r'\ ', r'\s+') + r'\b', text)`
is not `None` (`security_utils.py` lines 52-53). -/
def containsKw (text : List Char) (kw : String) : Bool :=
  kwSearchAux (toPat kw) kw.data.getLast? none text

/-- The `prohibited_patterns` dictionary of `validate_query_type`
(`security_utils.py` lines 23-46), flattened in Python iteration order as
(category, keyword) pairs.  The INJECTION entry
`;.*(?:DELETE|UPDATE|INSERT|DROP)` is passed through `re.escape` by the
source, so it too is matched as a literal. -/
def prohibitedPatterns : List (String × String) :=
  [("DELETE", "DELETE"), ("DELETE", "TRUNCATE"), ("DELETE", "DROP TABLE"),
   ("DELETE", "DROP DATABASE"),
   ("UPDATE", "UPDATE"),
   ("INSERT", "INSERT"),
   ("SCHEMA", "ALTER TABLE"), ("SCHEMA", "ALTER DATABASE"),
   ("SCHEMA", "CREATE TABLE"), ("SCHEMA", "CREATE DATABASE"),
   ("SCHEMA", "CREATE INDEX"), ("SCHEMA", "DROP INDEX"),
   ("SCHEMA", "CREATE VIEW"), ("SCHEMA", "DROP VIEW"),
   ("SCHEMA", "ALTER COLUMN"), ("SCHEMA", "ADD COLUMN"),
   ("SCHEMA", "DROP COLUMN"),
   ("ADMIN", "GRANT"), ("ADMIN", "REVOKE"), ("ADMIN", "CREATE USER"),
   ("ADMIN", "DROP USER"), ("ADMIN", "ALTER USER"), ("ADMIN", "CREATE ROLE"),
   ("ADMIN", "DROP ROLE"),
   ("INJECTION", ";.*(?:DELETE|UPDATE|INSERT|DROP)"), ("INJECTION", "EXEC"),
   ("INJECTION", "EXECUTE"), ("INJECTION", "xp_"), ("INJECTION", "sp_executesql")]

/-- The block message of `validate_query_type` for a detected prohibited
keyword (`security_utils.py` lines 54-60). -/
def prohibitedBlockMsg (category keyword : String) : String :=
  "🚫 SECURITY BLOCK: " ++ category ++ " operations are not permitted.\n" ++
  "   Detected: " ++ keyword ++ "\n" ++
  "   This chatbot is READ-ONLY and can only execute SELECT queries.\n" ++
  "   Reason: Banking security regulations require data integrity.\n" ++
  "   This incident has been logged for audit purposes."

/-- The block message of `validate_query_type` for a statement that does
not start with SELECT or WITH (`security_utils.py` lines 64-68). -/
def nonSelectBlockMsg : String :=
  "🚫 SECURITY BLOCK: Only SELECT queries are permitted.\n" ++
  "   This chatbot has READ-ONLY access to the database.\n" ++
  "   This incident has been logged for audit purposes."

/-- The keyword scan and SELECT/WITH check of `validate_query_type`
applied to the already comment-stripped text
(`security_utils.py` lines 48-70). -/
def classifyStripped (t : List Char) : Bool × String :=
  match prohibitedPatterns.find? (fun p => containsKw t p.2) with
  | some (category, keyword) => (false, prohibitedBlockMsg category keyword)
  | none =>
    if startsWithChars "SELECT".data t || startsWithChars "WITH".data t then (true, "")
    else (false, nonSelectBlockMsg)

/-- `validate_query_type` (`security_utils.py` lines 5-70): upper-case,
trim, strip `--` and `/* */` comments, reject on any prohibited keyword,
then require the statement to start with SELECT or WITH. -/
def validate_query_type (sql_query : String) : Bool × String :=
  classifyStripped (strippedSql sql_query)

/-- Case-insensitive literal match: `pat` is given in lower case and each
text character is compared via `Char.toLower` (regex `re.IGNORECASE`).
Returns the remainder on success. -/
def dropICaseLit : List Char → List Char → Option (List Char)
  | [], s => some s
  | _ :: _, [] => none
  | p :: ps, c :: cs => if c.toLower = p then dropICaseLit ps cs else none

/-- Match `customer_name\s*=\s*'([^']+)'` (with `re.IGNORECASE`) at the
start of `s`, returning the captured value and the remainder after the
closing quote (`security_utils.py` line 84). -/
def matchIdentEq (s : List Char) : Option (List Char × List Char) :=
  match dropICaseLit "customer_name".data s with
  | none => none
  | some r1 =>
    match r1.dropWhile isSpaceChar with
    | [] => none
    | e :: r3 =>
      if e = '=' then
        match r3.dropWhile isSpaceChar with
        | [] => none
        | q :: r5 =>
          if q = squote then
            let v := r5.takeWhile (fun ch => ch ≠ squote)
            match r5.dropWhile (fun ch => ch ≠ squote) with
            | [] => none
            | _ :: r7 => if v = [] then none else some (v, r7)
          else none
      else none

/-- `re.findall` scan for the identity pattern: non-overlapping matches,
left to right; after a match the scan resumes right after its closing
quote.  The `Nat` argument counts characters still to skip from the last
match, so the recursion is structural on the text. -/
def extractAux : Nat → List Char → List String
  | _, [] => []
  | Nat.succ k, _ :: cs => extractAux k cs
  | 0, c :: cs =>
    match matchIdentEq (c :: cs) with
    | some (v, rest) => String.mk v :: extractAux ((c :: cs).length - rest.length - 1) cs
    | none => extractAux 0 cs

/-- `extract_customer_names_from_sql` (`security_utils.py` lines 73-86):
all values of `customer_name = '…'` equality predicates, in order. -/
def extract_customer_names_from_sql (sql_query : String) : List String :=
  extractAux 0 sql_query.data

/-- The authentication-required message shared by
`validate_row_level_security` and `validate_natural_language_query`
(`security_utils.py` lines 102 and 151). -/
def authRequiredMsg : String := "🚫 Authentication required to access database."

/-- The cross-identity block message of `validate_row_level_security`
(`security_utils.py` lines 110-116). -/
def crossIdentityMsg (customer current_user : String) : String :=
  "🚫 SECURITY VIOLATION DETECTED!\n" ++
  "   Attempted to access: " ++ sqS ++ customer ++ sqS ++ "\n" ++
  "   You are authenticated as: " ++ sqS ++ current_user ++ sqS ++ "\n" ++
  "   You can only access your own data.\n" ++
  "   This incident has been logged for audit and compliance."

/-- The unscoped-access block message of `validate_row_level_security`
(`security_utils.py` lines 129-134). -/
def unscopedMsg (table current_user : String) : String :=
  "🚫 SECURITY VIOLATION: Query attempts to access all records without filtering.\n" ++
  "   Table: " ++ table ++ "\n" ++
  "   You can only access your own data (authenticated as: " ++ sqS ++
  current_user ++ sqS ++ ").\n" ++
  "   This incident has been logged for audit and compliance."

/-- The `for customer in referenced_customers: if customer != current_user`
loop (`security_utils.py` lines 108-116): first extracted name differing
from the authenticated user, if any. -/
def firstOtherCustomer (current_user : String) : List String → Option String
  | [] => none
  | c :: cs => if c ≠ current_user then some c else firstOtherCustomer current_user cs

/-- The hard-coded restricted tables of `validate_row_level_security`
(`security_utils.py` line 122). -/
def restrictedTables : List String := ["CUSTOMERS", "TRANSACTIONS", "ACCOUNTS"]

/-- The restricted-table loop (`security_utils.py` lines 124-134): the
first table with `FROM <table>` or `JOIN <table>` occurring as a substring
of the upper-cased SQL while `WHERE` does not occur as a substring. -/
def unscopedTable (sqlU : List Char) : Option String :=
  restrictedTables.find? (fun t =>
    (containsSub ("FROM " ++ t).data sqlU || containsSub ("JOIN " ++ t).data sqlU)
      && !(containsSub "WHERE".data sqlU))

/-- `validate_row_level_security` (`security_utils.py` lines 89-136):
require authentication, reject the first extracted foreign customer name,
then reject a restricted table referenced without any `WHERE` substring. -/
def validate_row_level_security (sql_query current_user : String) : Bool × String :=
  if current_user = "" then (false, authRequiredMsg)
  else
    match firstOtherCustomer current_user (extract_customer_names_from_sql sql_query) with
    | some customer => (false, crossIdentityMsg customer current_user)
    | none =>
      match unscopedTable (sql_query.data.map Char.toUpper) with
      | some table => (false, unscopedMsg table current_user)
      | none => (true, "")

/-- The prohibited natural-language patterns of
`validate_natural_language_query` (`security_utils.py` lines 156-169). -/
def nlProhibited : List String :=
  ["all customers", "all users", "every customer", "every user",
   "list all customers", "show all customers", "total customers",
   "count of customers", "list customers", "show customers",
   "all accounts", "every account"]

/-- The denial message of `validate_natural_language_query`
(`security_utils.py` lines 172-177). -/
def nlDeniedMsg (current_user : String) : String :=
  "🚫 Access Denied: You can only access your own data.\n" ++
  "   You are authenticated as " ++ sqS ++ current_user ++ sqS ++ ".\n" ++
  "   Try asking: " ++ sqS ++ "my transactions" ++ sqS ++ " or " ++ sqS ++
  "my account details" ++ sqS ++ "\n" ++
  "   This incident has been logged for audit purposes."

/-- `validate_natural_language_query` (`security_utils.py` lines 139-179):
require authentication, then reject when any prohibited phrase occurs in
the lower-cased request. -/
def validate_natural_language_query (query current_user : String) : Bool × String :=
  if current_user = "" then (false, authRequiredMsg)
  else if nlProhibited.any (fun p => containsSub p.data (query.data.map Char.toLower))
    then (false, nlDeniedMsg current_user)
  else (true, "")

/-- The fixed timeout message of `sanitize_error_message`
(`security_utils.py` lines 196-199). -/
def timeoutSanitizedMsg : String :=
  "⏱️ Query timeout: The query took too long to execute (max 30 seconds).\n" ++
  "   Try simplifying your query or adding more specific filters."

/-- The fixed quota message of `sanitize_error_message`
(`security_utils.py` lines 201-204). -/
def quotaSanitizedMsg : String :=
  "💾 Query too expensive: This query would process too much data.\n" ++
  "   Try adding more specific filters to reduce the data scanned."

/-- The fixed permission message of `sanitize_error_message`
(`security_utils.py` lines 206-209). -/
def permissionSanitizedMsg : String :=
  "🚫 Access denied: You don" ++ sqS ++ "t have permission to access this resource.\n" ++
  "   Please contact your administrator."

/-- The fixed not-found message of `sanitize_error_message`
(`security_utils.py` lines 211-214). -/
def notFoundSanitizedMsg : String :=
  "❓ Resource not found: The requested table or column doesn" ++ sqS ++ "t exist.\n" ++
  "   Please check your query and try again."

/-- The fixed generic message of `sanitize_error_message`
(`security_utils.py` lines 217-220). -/
def genericSanitizedMsg : String :=
  "⚠️ An error occurred while processing your request.\n" ++
  "   Please try again or contact support if the issue persists."

/-- `sanitize_error_message` (`security_utils.py` lines 182-220): map the
lower-cased raw error to one of five fixed messages by substring tests. -/
def sanitize_error_message (error : String) : String :=
  let e := error.data.map Char.toLower
  if containsSub "timeout".data e then timeoutSanitizedMsg
  else if containsSub "bytes".data e || containsSub "quota".data e then quotaSanitizedMsg
  else if containsSub "permission".data e || containsSub "denied".data e then
    permissionSanitizedMsg
  else if containsSub "not found".data e then notFoundSanitizedMsg
  else genericSanitizedMsg

/-- The message actually returned to the caller by the exception handler of
`_execute_query` (`agent/mcp_toolbox_server.py` lines 307-309):
`f"An error occurred while executing the BigQuery query: {e}"` — the raw
exception text is interpolated into the reply. -/
def executionErrorReply (e : String) : String :=
  "An error occurred while executing the BigQuery query: " ++ e

/-- Python `value[-k:]` for the masking helper; `value[-0:]` is the whole
string. -/
def pySliceLast (value : String) (k : Nat) : String :=
  if k = 0 then value else String.mk (value.data.drop (value.length - k))

/-- `mask_sensitive_value` (`security_utils.py` lines 261-276); the source
defaults are `mask_char='*'` and `visible_chars=4`.  A value no longer
than `visible_chars` (including the empty string) is fully masked,
otherwise all but the last `visible_chars` characters are masked. -/
def mask_sensitive_value (value : String) (mask_char : Char) (visible_chars : Nat) : String :=
  if value.length ≤ visible_chars then String.mk (List.replicate value.length mask_char)
  else
    String.mk (List.replicate (value.length - visible_chars) mask_char) ++
      pySliceLast value visible_chars

/-- A query result set as produced by the executor: its column names and
its rows, each row an association of column name to value. -/
structure DataFrame where
  cols : List String
  rows : List (List (String × String))

/-- Value of a column in a row (`row['customer_name']`). -/
def lookupCol (row : List (String × String)) (col : String) : Option String :=
  (row.find? (fun p => p.1 == col)).map (fun p => p.2)

/-- `results[results['customer_name'] != current_user]`
(`agent/mcp_toolbox_server.py` line 294): the rows whose
`customer_name` value differs from the authenticated user. -/
def unauthorizedRows (results : DataFrame) (current_user : String) :
    List (List (String × String)) :=
  results.rows.filter (fun r => decide (lookupCol r "customer_name" ≠ some current_user))

/-- The security-block message of the post-execution check
(`agent/mcp_toolbox_server.py` lines 297-300). -/
def postExecBlockMsg : String :=
  "🚫 Security validation failed: Query returned unauthorized data.\n" ++
  "   This incident has been logged."

/-- Outcome of the post-execution portion of `_execute_query`: the result
set is discarded with the security message, or it is empty, or it is
returned to the caller. -/
inductive ExecOutcome
  | blocked (msg : String)
  | empty
  | ok (results : DataFrame)

/-- The post-execution audit of `_execute_query`
(`agent/mcp_toolbox_server.py` lines 291-305): when a user is set, the
result is non-empty, it has a `customer_name` column, and some row carries
a foreign `customer_name`, the whole result is discarded; otherwise the
(possibly empty) result is surfaced. -/
def post_execution_audit (results : DataFrame) (current_user : String) : ExecOutcome :=
  if current_user ≠ "" ∧ results.rows ≠ [] ∧ "customer_name" ∈ results.cols ∧
      unauthorizedRows results current_user ≠ [] then
    .blocked postExecBlockMsg
  else if results.rows = [] then .empty
  else .ok results

/-- Per-principal state of the rate limiter: the session counter and the
sliding-window timestamps (seconds). -/
structure RateWindow where
  session_count : Nat
  timestamps : List Nat

/-- Modelled from the spec: `max_queries_per_minute` (default 10); the
rate limiter itself is absent from the repository sources (it appears only
in the agent prompt text), so §4.5 of the spec is embedded directly. -/
def max_per_minute : Nat := 10

/-- Modelled from the spec: `max_queries_per_session` (default 100). -/
def max_per_session : Nat := 100

/-- Modelled from the spec: prune timestamps older than 60 seconds from
now, keeping those within the sliding one-minute window. -/
def pruneWindow (timestamps : List Nat) (now : Nat) : List Nat :=
  timestamps.filter (fun t => decide (now ≤ t + 60))

/-- Modelled from the spec: the session-limit rejection reason. -/
def sessionLimitReason : String := "Rate limited: session limit reached."

/-- Modelled from the spec: the per-minute rejection reason. -/
def minuteLimitReason : String := "Rate limited: per-minute limit reached."

/-- Modelled from the spec (§4.5, absent from the sources):
`check_and_record` first rejects when the session counter is already at
`max_per_session`; otherwise prunes the window and rejects when the
remaining count is at least `max_per_minute`; otherwise records the
timestamp, increments the session counter and allows. -/
def check_and_record (w : RateWindow) (now : Nat) : (Bool × String) × RateWindow :=
  if max_per_session ≤ w.session_count then ((false, sessionLimitReason), w)
  else
    let pruned := pruneWindow w.timestamps now
    if max_per_minute ≤ pruned.length then
      ((false, minuteLimitReason), { w with timestamps := pruned })
    else ((true, ""), { session_count := w.session_count + 1, timestamps := pruned ++ [now] })

/-- Modelled from the spec: `reset_session` clears both counters. -/
def reset_session : RateWindow := { session_count := 0, timestamps := [] }

example : containsKw "SELECT UPDATED_AT FROM T".data "UPDATE" = false := by decide
example : containsKw "SELECT 1; UPDATE T".data "UPDATE" = true := by decide
example : containsKw "DROP    TABLE X".data "DROP TABLE" = true := by decide
example : containsKw "SELECT DROPTABLE".data "DROP TABLE" = false := by decide
example : stripLineComments "A -- B\nC".data = "A \nC".data := by decide
example : stripBlockComments "A/*x*/B".data = "AB".data := by decide
example : stripBlockComments "A/*x B".data = "A/*x B".data := by decide
example : pyStrip "  a b  ".data = "a b".data := by decide

/-! ## Evaluation checks of the embedding on concrete inputs -/

example : (validate_query_type "DELETE FROM t") = (false, prohibitedBlockMsg "DELETE" "DELETE") := by decide
example : (validate_query_type "SELECT updated_at FROM t") = (true, "") := by decide
example : (validate_query_type "SELECT 1 -- DELETE") = (true, "") := by decide
example : (validate_query_type "/* hi */ SELECT 1") = (false, nonSelectBlockMsg) := by decide
example : (validate_query_type "SELECT /* DROP TABLE x */ 1") = (true, "") := by decide
example : (validate_query_type "  WITH x AS (SELECT 1) SELECT * FROM x") = (true, "") := by decide
example : (validate_query_type "SELECT DROP    TABLE") = (false, prohibitedBlockMsg "DELETE" "DROP TABLE") := by decide
example : (validate_query_type "SELECT a; DROP TABLE b") = (false, prohibitedBlockMsg "DELETE" "DROP TABLE") := by decide
example : (validate_query_type "SELECT EXECUTE") = (false, prohibitedBlockMsg "INJECTION" "EXECUTE") := by decide
example : (validate_query_type "SELECT xp_ FROM t") = (true, "") := by decide
example : (validate_query_type "SELECT 1 /*/ DELETE /*/ FROM t") = (true, "") := by decide
example : (validate_query_type "SELECT 1 /* unterminated DELETE") = (false, prohibitedBlockMsg "DELETE" "DELETE") := by decide
example : extract_customer_names_from_sql ("SELECT * FROM t WHERE CUSTOMER_NAME=" ++ sqS ++ "Bob" ++ sqS ++ " AND customer_name  =  " ++ sqS ++ "Ann" ++ sqS) = ["Bob", "Ann"] := by decide
example : extract_customer_names_from_sql ("customer_name = " ++ sqS ++ "X customer_name = " ++ sqS ++ "Bob" ++ sqS) = ["X customer_name = "] := by decide
example : validate_row_level_security ("SELECT * FROM transactions WHERE customer_name = " ++ sqS ++ "Bob" ++ sqS) "Alice" = (false, crossIdentityMsg "Bob" "Alice") := by decide
example : validate_row_level_security ("SELECT * FROM transactions WHERE customer_name = " ++ sqS ++ "Alice" ++ sqS) "Alice" = (true, "") := by decide
example : validate_row_level_security "SELECT * FROM customers" "Alice" = (false, unscopedMsg "CUSTOMERS" "Alice") := by decide
example : validate_row_level_security "SELECT ANYWHERE FROM CUSTOMERS" "Alice" = (true, "") := by decide
example : validate_row_level_security ("DELETE FROM transactions WHERE customer_name = " ++ sqS ++ "Alice" ++ sqS) "Alice" = (true, "") := by decide
example : (validate_natural_language_query "Show ALL customers now" "Alice").1 = false := by decide
example : validate_natural_language_query "show my transactions" "Alice" = (true, "") := by decide
example : sanitize_error_message "Connection Timeout after 30s" = timeoutSanitizedMsg := by decide
example : mask_sensitive_value "1234567890123456" '*' 4 = "************3456" := by decide
example : mask_sensitive_value "1234" '*' 4 = "****" := by decide
example : mask_sensitive_value "" '*' 4 = "" := by decide

/-! ## Helper lemmas -/

theorem firstOtherCustomer_of_exists {u : String} {l : List String}
    (h : ∃ v ∈ l, v ≠ u) :
    ∃ w, firstOtherCustomer u l = some w ∧ w ∈ l ∧ w ≠ u := by
  induction l with
  | nil => simp at h
  | cons c cs ih =>
    by_cases hc : c = u
    · subst hc
      obtain ⟨v, hv, hvne⟩ := h
      rcases List.mem_cons.mp hv with rfl | hv2
      · exact absurd rfl hvne
      · obtain ⟨w, hw, hwm, hwne⟩ := ih ⟨v, hv2, hvne⟩
        refine ⟨w, ?_, List.mem_cons_of_mem _ hwm, hwne⟩
        simpa [firstOtherCustomer] using hw
    · exact ⟨c, by simp [firstOtherCustomer, hc], List.mem_cons_self c cs, hc⟩

theorem firstOtherCustomer_of_forall {u : String} {l : List String}
    (h : ∀ v ∈ l, v = u) : firstOtherCustomer u l = none := by
  induction l with
  | nil => rfl
  | cons c cs ih =>
    have hc : c = u := h c (List.mem_cons_self c cs)
    simp only [firstOtherCustomer, hc, ne_eq, not_true_eq_false, if_false]
    exact ih fun v hv => h v (List.mem_cons_of_mem _ hv)

theorem str_append_ne_empty (a b : String) (h : a ≠ "") : a ++ b ≠ "" := by
  intro hc
  apply h
  have hd := congrArg String.data hc
  rw [String.data_append] at hd
  exact String.ext (List.append_eq_nil.mp hd).1

/-! ## Claim C1 -/

/-- Claim C1: whenever the identity extractor finds an equality-predicate
value differing from the authenticated principal, `validate_row_level_security`
blocks with the cross-identity message naming the offending value and the
authenticated identity; and when every extracted value equals the
principal, the cross-identity check passes (the verdict is either allowed
or the separate unscoped-table rejection). -/
theorem C1_cross_identity :
    (∀ sql user : String, user ≠ "" →
      (∃ v ∈ extract_customer_names_from_sql sql, v ≠ user) →
      ∃ w ∈ extract_customer_names_from_sql sql, w ≠ user ∧
        validate_row_level_security sql user = (false, crossIdentityMsg w user)) ∧
    (∀ sql user : String, user ≠ "" →
      (∀ v ∈ extract_customer_names_from_sql sql, v = user) →
      validate_row_level_security sql user = (true, "") ∨
        ∃ t, validate_row_level_security sql user = (false, unscopedMsg t user)) := by
  constructor
  · intro sql user huser hex
    obtain ⟨w, hw, hwm, hwne⟩ := firstOtherCustomer_of_exists hex
    exact ⟨w, hwm, hwne, by simp [validate_row_level_security, huser, hw]⟩
  · intro sql user huser hall
    have hnone := firstOtherCustomer_of_forall hall
    cases ht : unscopedTable (sql.data.map Char.toUpper) with
    | none => exact Or.inl (by simp [validate_row_level_security, huser, hnone, ht])
    | some t => exact Or.inr ⟨t, by simp [validate_row_level_security, huser, hnone, ht]⟩

/-- Witness for C1 at the spec's own example: a query filtering on `Bob`
issued by `Alice` is blocked with the cross-identity message. -/
theorem C1_cross_identity_witness :
    ∃ w ∈ extract_customer_names_from_sql
        ("SELECT * FROM transactions WHERE customer_name = " ++ sqS ++ "Bob" ++ sqS),
      w ≠ "Alice" ∧
      validate_row_level_security
          ("SELECT * FROM transactions WHERE customer_name = " ++ sqS ++ "Bob" ++ sqS)
          "Alice" = (false, crossIdentityMsg w "Alice") :=
  C1_cross_identity.1 _ "Alice" (by decide) ⟨"Bob", by decide, by decide⟩

/-! ## Claim C2 -/

/-- Counterexample to C2 as stated: `SELECT ANYWHERE FROM CUSTOMERS`
references the restricted table `customers` via `FROM customers`
(case-insensitively, as a whole word) and contains no `WHERE` clause at
all (no whole-word `WHERE`), yet `validate_row_level_security` allows it,
because the source tests `"WHERE" in sql_upper` as a plain substring and
the identifier `ANYWHERE` contains that substring. -/
theorem C2_counterexample :
    containsKw ("SELECT ANYWHERE FROM CUSTOMERS".data.map Char.toUpper) "FROM CUSTOMERS" = true ∧
    containsKw ("SELECT ANYWHERE FROM CUSTOMERS".data.map Char.toUpper) "WHERE" = false ∧
    validate_row_level_security "SELECT ANYWHERE FROM CUSTOMERS" "Alice" = (true, "") := by
  refine ⟨by decide, by decide, by decide⟩

/-- Claim C2 as amended: table references and the `WHERE` test are plain
substring checks on the upper-cased SQL, not whole-word checks.  If the
upper-cased SQL contains `FROM <table>` or `JOIN <table>` for a restricted
table and does not contain the substring `WHERE` (and the earlier
authentication and cross-identity checks pass), the query is blocked with
the unscoped-access message; if the substring `WHERE` occurs anywhere, the
unfiltered-scan check never rejects. -/
theorem C2_unscoped_access :
    (∀ sql user : String, user ≠ "" →
      firstOtherCustomer user (extract_customer_names_from_sql sql) = none →
      containsSub "WHERE".data (sql.data.map Char.toUpper) = false →
      (∃ t ∈ restrictedTables,
        containsSub ("FROM " ++ t).data (sql.data.map Char.toUpper) = true ∨
        containsSub ("JOIN " ++ t).data (sql.data.map Char.toUpper) = true) →
      ∃ t, unscopedTable (sql.data.map Char.toUpper) = some t ∧
        validate_row_level_security sql user = (false, unscopedMsg t user)) ∧
    (∀ sql user : String, user ≠ "" →
      firstOtherCustomer user (extract_customer_names_from_sql sql) = none →
      containsSub "WHERE".data (sql.data.map Char.toUpper) = true →
      validate_row_level_security sql user = (true, "")) := by
  constructor
  · intro sql user huser hnone hwhere href
    have hfind : unscopedTable (sql.data.map Char.toUpper) ≠ none := by
      intro hn
      obtain ⟨t, htm, htr⟩ := href
      have hno := List.find?_eq_none.mp hn t htm
      simp only [hwhere, Bool.not_false, Bool.and_true, Bool.or_eq_true, not_or] at hno
      rcases htr with h1 | h1
      · exact hno.1 h1
      · exact hno.2 h1
    cases ht : unscopedTable (sql.data.map Char.toUpper) with
    | none => exact absurd ht hfind
    | some t =>
      exact ⟨t, rfl, by simp [validate_row_level_security, huser, hnone, ht]⟩
  · intro sql user huser hnone hwhere
    have ht : unscopedTable (sql.data.map Char.toUpper) = none := by
      apply List.find?_eq_none.mpr
      intro t _
      simp [hwhere]
    simp [validate_row_level_security, huser, hnone, ht]

/-- Witness for the amended C2 at the spec's example: an unfiltered scan
of the restricted `customers` table by `Alice` is blocked with the
unscoped-access message, and the same query with the caller's own filter
is allowed. -/
theorem C2_unscoped_access_witness :
    (∃ t, unscopedTable ("SELECT * FROM customers".data.map Char.toUpper) = some t ∧
      validate_row_level_security "SELECT * FROM customers" "Alice" = (false, unscopedMsg t "Alice")) ∧
    validate_row_level_security
        ("SELECT * FROM customers WHERE customer_name = " ++ sqS ++ "Alice" ++ sqS)
        "Alice" = (true, "") :=
  ⟨C2_unscoped_access.1 "SELECT * FROM customers" "Alice" (by decide) (by decide) (by decide)
      ⟨"CUSTOMERS", by decide, Or.inl (by decide)⟩,
    C2_unscoped_access.2 _ "Alice" (by decide) (by decide) (by decide)⟩

/-! ## Claim C3 -/

/-- Counterexample to C3 as stated: `DELETE FROM transactions WHERE
customer_name = 'Alice'` is rejected by the query classifier
(`validate_query_type`), yet `validate_row_level_security` allows it —
the row validator never runs the classifier and does not propagate its
verdict. -/
theorem C3_counterexample :
    validate_query_type
        ("DELETE FROM transactions WHERE customer_name = " ++ sqS ++ "Alice" ++ sqS) =
      (false, prohibitedBlockMsg "DELETE" "DELETE") ∧
    validate_row_level_security
        ("DELETE FROM transactions WHERE customer_name = " ++ sqS ++ "Alice" ++ sqS)
        "Alice" = (true, "") := by
  refine ⟨by decide, by decide⟩

/-- Claim C3 as amended: `validate_row_level_security` does not invoke the
query classifier; its verdict is determined solely by the authentication
check, the extracted identity predicates and the restricted-table check,
so whenever those pass it allows the query even if `validate_query_type`
would reject it (the classifier exists only as the separate, uncomposed
function `validate_query_type`). -/
theorem C3_no_classifier_in_row_validation :
    ∀ sql user : String, user ≠ "" →
      firstOtherCustomer user (extract_customer_names_from_sql sql) = none →
      unscopedTable (sql.data.map Char.toUpper) = none →
      validate_row_level_security sql user = (true, "") := by
  intro sql user huser hnone ht
  simp [validate_row_level_security, huser, hnone, ht]

/-- Witness for the amended C3: the classifier-rejected `DELETE` query of
the counterexample passes all three row-validator checks and is allowed. -/
theorem C3_no_classifier_witness :
    validate_row_level_security
        ("DELETE FROM transactions WHERE customer_name = " ++ sqS ++ "Alice" ++ sqS)
        "Alice" = (true, "") :=
  C3_no_classifier_in_row_validation _ "Alice" (by decide) (by decide) (by decide)

/-! ## Claim C4 -/

/-- Claim C4: any SQL whose comment-stripped text contains one of
`DELETE`, `UPDATE`, `INSERT`, `DROP TABLE`, `ALTER TABLE`, `GRANT` as a
word-boundary token is rejected by `validate_query_type` with the block
message naming the matched keyword; and word-boundary matching means the
identifier `UPDATED_AT` does not trigger the `UPDATE` rule. -/
theorem C4_prohibited_keywords :
    (∀ (sql kw : String),
      kw ∈ (["DELETE", "UPDATE", "INSERT", "DROP TABLE", "ALTER TABLE", "GRANT"] : List String) →
      containsKw (strippedSql sql) kw = true →
      ∃ cat kw2,
        prohibitedPatterns.find? (fun p => containsKw (strippedSql sql) p.2) = some (cat, kw2) ∧
        containsKw (strippedSql sql) kw2 = true ∧
        validate_query_type sql = (false, prohibitedBlockMsg cat kw2)) ∧
    validate_query_type "SELECT updated_at FROM transactions WHERE amount > 5" = (true, "") := by
  constructor
  · intro sql kw hkw hdet
    have hpair : ∃ cat, (cat, kw) ∈ prohibitedPatterns := by
      fin_cases hkw
      · exact ⟨"DELETE", by decide⟩
      · exact ⟨"UPDATE", by decide⟩
      · exact ⟨"INSERT", by decide⟩
      · exact ⟨"DELETE", by decide⟩
      · exact ⟨"SCHEMA", by decide⟩
      · exact ⟨"ADMIN", by decide⟩
    obtain ⟨cat, hmem⟩ := hpair
    cases hf : prohibitedPatterns.find? (fun p => containsKw (strippedSql sql) p.2) with
    | none =>
      have := List.find?_eq_none.mp hf (cat, kw) hmem
      simp [hdet] at this
    | some p =>
      obtain ⟨cat2, kw2⟩ := p
      refine ⟨cat2, kw2, rfl, by simpa using List.find?_some hf, ?_⟩
      simp [validate_query_type, classifyStripped, hf]
  · decide

/-- Witness for C4: a bare `DELETE` statement is rejected naming the
matched keyword. -/
theorem C4_prohibited_keywords_witness :
    ∃ cat kw2,
      prohibitedPatterns.find? (fun p => containsKw (strippedSql "DELETE FROM transactions") p.2) =
        some (cat, kw2) ∧
      containsKw (strippedSql "DELETE FROM transactions") kw2 = true ∧
      validate_query_type "DELETE FROM transactions" = (false, prohibitedBlockMsg cat kw2) :=
  C4_prohibited_keywords.1 "DELETE FROM transactions" "DELETE" (by decide) (by decide)

/-! ## Claim C6 -/

/-- Claim C6: the post-execution audit of `_execute_query` discards the
entire result whenever some row carries a `customer_name` differing from
the authenticated principal, returning the security-block message — the
function takes only the result set and the principal, independent of how
the SQL layer classified the originating query — and a non-empty result
all of whose rows carry the caller's identity is surfaced unchanged. -/
theorem C6_post_execution_audit :
    (∀ (results : DataFrame) (user : String), user ≠ "" →
      "customer_name" ∈ results.cols →
      (∃ r ∈ results.rows, lookupCol r "customer_name" ≠ some user) →
      post_execution_audit results user = .blocked postExecBlockMsg) ∧
    (∀ (results : DataFrame) (user : String), results.rows ≠ [] →
      (∀ r ∈ results.rows, lookupCol r "customer_name" = some user) →
      post_execution_audit results user = .ok results) := by
  constructor
  · intro results user huser hcol hex
    obtain ⟨r, hr, hrne⟩ := hex
    have hrows : results.rows ≠ [] := List.ne_nil_of_mem hr
    have hunauth : unauthorizedRows results user ≠ [] :=
      List.ne_nil_of_mem (List.mem_filter.mpr ⟨hr, decide_eq_true hrne⟩)
    simp [post_execution_audit, huser, hrows, hcol, hunauth]
  · intro results user hrows hall
    have hunauth : unauthorizedRows results user = [] := by
      apply List.filter_eq_nil_iff.mpr
      intro r hr
      simp [hall r hr]
    simp [post_execution_audit, hunauth, hrows]

/-- Witness for C6: a single row for `Bob` seen by `Alice` is discarded
with the block message; the same row seen by `Bob` is surfaced. -/
theorem C6_post_execution_audit_witness :
    post_execution_audit ⟨["customer_name"], [[("customer_name", "Bob")]]⟩ "Alice" =
      .blocked postExecBlockMsg ∧
    post_execution_audit ⟨["customer_name"], [[("customer_name", "Bob")]]⟩ "Bob" =
      .ok ⟨["customer_name"], [[("customer_name", "Bob")]]⟩ :=
  ⟨C6_post_execution_audit.1 _ "Alice" (by decide) (by decide)
      ⟨[("customer_name", "Bob")], by decide, by decide⟩,
    C6_post_execution_audit.2 _ "Bob" (by decide) (by decide)⟩

/-! ## Claim C7 -/

/-- Claim C7 fails on the code: the exception handler of `_execute_query`
surfaces the raw executor error inside its reply instead of one of the
fixed messages of `sanitize_error_message` (which is never called there).
At the raw error `Deadline exceeded while scanning table xyz123`, the
surfaced reply contains the raw text verbatim and differs from the fixed
sanitized message the claim prescribes for an unrecognized error. -/
theorem C7_raw_error_surfaced :
    containsSub "Deadline exceeded while scanning table xyz123".data
        (executionErrorReply "Deadline exceeded while scanning table xyz123").data = true ∧
    sanitize_error_message "Deadline exceeded while scanning table xyz123" =
      genericSanitizedMsg ∧
    executionErrorReply "Deadline exceeded while scanning table xyz123" ≠
      genericSanitizedMsg := by
  refine ⟨by decide, by decide, by decide⟩

/-! ## Claim C8 -/

/-- Claim C8 (rate limiter, modelled from the spec since no rate limiter
exists in the sources): `check_and_record` first rejects when the session
counter has reached `max_per_session`, regardless of timing and without
touching the state; otherwise it prunes the one-minute window and rejects
when the remaining count is at least `max_per_minute`; otherwise it
records the timestamp, increments the session counter, and allows — and a
freshly reset session is always allowed, so only `reset_session` clears a
saturated session counter. -/
theorem C8_rate_limiter :
    (∀ (w : RateWindow) (now : Nat), max_per_session ≤ w.session_count →
      check_and_record w now = ((false, sessionLimitReason), w)) ∧
    (∀ (w : RateWindow) (now : Nat), w.session_count < max_per_session →
      max_per_minute ≤ (pruneWindow w.timestamps now).length →
      check_and_record w now =
        ((false, minuteLimitReason), { w with timestamps := pruneWindow w.timestamps now })) ∧
    (∀ (w : RateWindow) (now : Nat), w.session_count < max_per_session →
      (pruneWindow w.timestamps now).length < max_per_minute →
      check_and_record w now =
        ((true, ""), { session_count := w.session_count + 1,
                       timestamps := pruneWindow w.timestamps now ++ [now] })) ∧
    (∀ now : Nat, (check_and_record reset_session now).1.1 = true) := by
  refine ⟨?_, ?_, ?_, ?_⟩
  · intro w now h
    simp [check_and_record, h]
  · intro w now h1 h2
    simp [check_and_record, Nat.not_le.mpr h1, h2]
  · intro w now h1 h2
    simp [check_and_record, Nat.not_le.mpr h1, Nat.not_le.mpr h2]
  · intro now
    simp [check_and_record, reset_session, pruneWindow, max_per_session, max_per_minute]

/-- Witness for C8: a session at the cap is rejected; a full one-minute
window is rejected; a fresh window is allowed and records the call. -/
theorem C8_rate_limiter_witness :
    check_and_record ⟨100, []⟩ 5 = ((false, sessionLimitReason), ⟨100, []⟩) ∧
    check_and_record ⟨3, [1, 1, 2, 2, 3, 3, 4, 4, 5, 5]⟩ 6 =
      ((false, minuteLimitReason), ⟨3, [1, 1, 2, 2, 3, 3, 4, 4, 5, 5]⟩) ∧
    check_and_record ⟨3, [1, 2]⟩ 6 = ((true, ""), ⟨4, [1, 2, 6]⟩) :=
  ⟨C8_rate_limiter.1 ⟨100, []⟩ 5 (by decide),
    C8_rate_limiter.2.1 ⟨3, [1, 1, 2, 2, 3, 3, 4, 4, 5, 5]⟩ 6 (by decide) (by decide),
    C8_rate_limiter.2.2.1 ⟨3, [1, 2]⟩ 6 (by decide) (by decide)⟩

/-! ## Claim C9 -/

theorem prohibitedBlockMsg_ne_empty (cat kw : String) : prohibitedBlockMsg cat kw ≠ "" := by
  unfold prohibitedBlockMsg
  repeat apply str_append_ne_empty
  decide

theorem crossIdentityMsg_ne_empty (c u : String) : crossIdentityMsg c u ≠ "" := by
  unfold crossIdentityMsg
  repeat apply str_append_ne_empty
  decide

theorem unscopedMsg_ne_empty (t u : String) : unscopedMsg t u ≠ "" := by
  unfold unscopedMsg
  repeat apply str_append_ne_empty
  decide

theorem nlDeniedMsg_ne_empty (u : String) : nlDeniedMsg u ≠ "" := by
  unfold nlDeniedMsg
  repeat apply str_append_ne_empty
  decide

/-- Claim C9: every blocked verdict of the three validation functions
carries a non-empty reason. -/
theorem C9_blocked_implies_reason :
    (∀ sql : String, (validate_query_type sql).1 = false →
      (validate_query_type sql).2 ≠ "") ∧
    (∀ sql user : String, (validate_row_level_security sql user).1 = false →
      (validate_row_level_security sql user).2 ≠ "") ∧
    (∀ q user : String, (validate_natural_language_query q user).1 = false →
      (validate_natural_language_query q user).2 ≠ "") := by
  refine ⟨?_, ?_, ?_⟩
  · intro sql hfalse
    cases hf : prohibitedPatterns.find? (fun p => containsKw (strippedSql sql) p.2) with
    | some p =>
      obtain ⟨cat, kw⟩ := p
      have heq : validate_query_type sql = (false, prohibitedBlockMsg cat kw) := by
        simp [validate_query_type, classifyStripped, hf]
      rw [heq]
      exact prohibitedBlockMsg_ne_empty cat kw
    | none =>
      by_cases hsel : (startsWithChars "SELECT".data (strippedSql sql) ||
          startsWithChars "WITH".data (strippedSql sql)) = true
      · have heq : validate_query_type sql = (true, "") := by
          simp [validate_query_type, classifyStripped, hf, hsel]
        rw [heq] at hfalse
        exact absurd hfalse (by decide)
      · have heq : validate_query_type sql = (false, nonSelectBlockMsg) := by
          simp [validate_query_type, classifyStripped, hf, hsel]
        rw [heq]
        decide
  · intro sql user hfalse
    by_cases huser : user = ""
    · have heq : validate_row_level_security sql user = (false, authRequiredMsg) := by
        simp [validate_row_level_security, huser]
      rw [heq]
      decide
    · cases hfo : firstOtherCustomer user (extract_customer_names_from_sql sql) with
      | some c =>
        have heq : validate_row_level_security sql user = (false, crossIdentityMsg c user) := by
          simp [validate_row_level_security, huser, hfo]
        rw [heq]
        exact crossIdentityMsg_ne_empty c user
      | none =>
        cases ht : unscopedTable (sql.data.map Char.toUpper) with
        | some t =>
          have heq : validate_row_level_security sql user = (false, unscopedMsg t user) := by
            simp [validate_row_level_security, huser, hfo, ht]
          rw [heq]
          exact unscopedMsg_ne_empty t user
        | none =>
          have heq : validate_row_level_security sql user = (true, "") := by
            simp [validate_row_level_security, huser, hfo, ht]
          rw [heq] at hfalse
          exact absurd hfalse (by decide)
  · intro q user hfalse
    by_cases huser : user = ""
    · have heq : validate_natural_language_query q user = (false, authRequiredMsg) := by
        simp [validate_natural_language_query, huser]
      rw [heq]
      decide
    · by_cases hp : (nlProhibited.any fun p => containsSub p.data (q.data.map Char.toLower)) = true
      · have heq : validate_natural_language_query q user = (false, nlDeniedMsg user) := by
          simp [validate_natural_language_query, huser, hp]
        rw [heq]
        exact nlDeniedMsg_ne_empty user
      · have heq : validate_natural_language_query q user = (true, "") := by
          simp [validate_natural_language_query, huser, hp]
        rw [heq] at hfalse
        exact absurd hfalse (by decide)

/-- Witness for C9: blocked verdicts of all three functions, each with its
non-empty reason. -/
theorem C9_blocked_implies_reason_witness :
    (validate_query_type "DELETE FROM t").2 ≠ "" ∧
    (validate_row_level_security "SELECT * FROM customers" "Alice").2 ≠ "" ∧
    (validate_natural_language_query "show all customers" "Alice").2 ≠ "" :=
  ⟨C9_blocked_implies_reason.1 "DELETE FROM t" (by decide),
    C9_blocked_implies_reason.2.1 "SELECT * FROM customers" "Alice" (by decide),
    C9_blocked_implies_reason.2.2 "show all customers" "Alice" (by decide)⟩

/-! ## Claim C10 -/

/-- Claim C10: `mask_sensitive_value` fully masks any value no longer than
`visible_chars` (so a 4-digit PIN with the default `visible_chars = 4`
becomes `****`), and maps the empty string to the empty string. -/
theorem C10_mask_short_values :
    (∀ (v : String) (mc : Char) (n : Nat), v.length ≤ n →
      mask_sensitive_value v mc n = String.mk (List.replicate v.length mc)) ∧
    mask_sensitive_value "" '*' 4 = "" ∧
    mask_sensitive_value "1234" '*' 4 = "****" ∧
    mask_sensitive_value "1234567890123456" '*' 4 = "************3456" := by
  refine ⟨?_, by decide, by decide, by decide⟩
  intro v mc n h
  simp [mask_sensitive_value, h]

/-- Witness for C10: a 3-character secret with the default parameters is
fully masked. -/
theorem C10_mask_short_values_witness :
    mask_sensitive_value "321" '*' 4 = String.mk (List.replicate (String.length "321") '*') :=
  C10_mask_short_values.1 "321" '*' 4 (by decide)

/-! ## Claim C5: comment stripping lemmas -/

theorem mem_of_mem_dropWhile {p : α → Bool} {a : α} (l : List α)
    (h : a ∈ l.dropWhile p) : a ∈ l := by
  induction l with
  | nil => simp at h
  | cons c cs ih =>
    rw [List.dropWhile_cons] at h
    split at h
    · exact List.mem_cons_of_mem _ (ih h)
    · exact h

theorem mem_of_mem_pyStripRight {a : Char} {l : List Char}
    (h : a ∈ pyStripRight l) : a ∈ l := by
  unfold pyStripRight at h
  rw [List.mem_reverse] at h
  exact List.mem_reverse.mp (mem_of_mem_dropWhile l.reverse h)

theorem pyStripRight_append (xs ys : List Char) :
    pyStripRight (xs ++ ys) =
      if pyStripRight ys = [] then pyStripRight xs else xs ++ pyStripRight ys := by
  unfold pyStripRight
  rw [List.reverse_append, List.dropWhile_append]
  by_cases hy : (ys.reverse.dropWhile isSpaceChar).isEmpty = true
  · have hy' : (ys.reverse.dropWhile isSpaceChar).reverse = [] := by
      rw [List.reverse_eq_nil_iff]
      exact List.isEmpty_iff.mp hy
    rw [if_pos hy, if_pos hy']
  · have hy' : ¬(ys.reverse.dropWhile isSpaceChar).reverse = [] := by
      rw [List.reverse_eq_nil_iff]
      intro h0
      exact hy (List.isEmpty_iff.mpr h0)
    rw [if_neg hy, if_neg hy', List.reverse_append, List.reverse_reverse]

theorem pyStrip_cons_nonws {x : Char} {xs : List Char} (hx : isSpaceChar x = false) :
    pyStrip (x :: xs) = pyStripRight (x :: xs) := by
  simp [pyStrip, List.dropWhile_cons, hx]

theorem stripLineAux_skip {t : List Char} (h : '\n' ∉ t) : stripLineAux true t = [] := by
  induction t with
  | nil => rfl
  | cons c cs ih =>
    have hc : ¬c = '\n' := fun h0 => h (h0 ▸ List.mem_cons_self c cs)
    simp only [stripLineAux, if_neg hc]
    exact ih fun hm => h (List.mem_cons_of_mem _ hm)

theorem stripLineAux_copy (xs rest : List Char) (h : '-' ∉ xs) :
    stripLineAux false (xs ++ rest) = xs ++ stripLineAux false rest := by
  induction xs with
  | nil => simp
  | cons c cs ih =>
    have hc : ¬c = '-' := fun h0 => h (h0 ▸ List.mem_cons_self c cs)
    have hcond : ¬(c = '-' ∧ (cs ++ rest).head? = some '-') := fun h0 => hc h0.1
    simp only [List.cons_append, stripLineAux, List.append_eq]
    rw [if_neg hcond, ih fun hm => h (List.mem_cons_of_mem _ hm)]

theorem stripLineAux_dashdash {t : List Char} (h : '\n' ∉ t) :
    stripLineAux false ('-' :: '-' :: t) = [] := by
  have h2 : '\n' ∉ '-' :: t := by
    intro hm
    rcases List.mem_cons.mp hm with h1 | h1
    · exact absurd h1 (by decide)
    · exact h h1
  calc stripLineAux false ('-' :: '-' :: t) = stripLineAux true ('-' :: t) := by
        simp [stripLineAux]
    _ = [] := stripLineAux_skip h2

theorem stripLineAux_id {l : List Char} (h : '-' ∉ l) : stripLineAux false l = l := by
  have hcopy := stripLineAux_copy l [] h
  simpa [stripLineAux] using hcopy

theorem sbcAux_copy (xs rest : List Char) (h : '/' ∉ xs) :
    sbcAux .normal (xs ++ rest) = xs ++ sbcAux .normal rest := by
  induction xs with
  | nil => simp
  | cons c cs ih =>
    have hc : ¬c = '/' := fun h0 => h (h0 ▸ List.mem_cons_self c cs)
    have hcond : ¬(c = '/' ∧ (cs ++ rest).head? = some '*') := fun h0 => hc h0.1
    simp only [List.cons_append, sbcAux, List.append_eq]
    rw [if_neg hcond, ih fun hm => h (List.mem_cons_of_mem _ hm)]

theorem sbcAux_open (r : List Char) :
    sbcAux .normal ('/' :: '*' :: r) = sbcAux (.inside ['*', '/']) r := by
  simp [sbcAux]

theorem sbcAux_inside_skip (t buf rest : List Char) (h : '*' ∉ t) :
    sbcAux (.inside buf) (t ++ '*' :: '/' :: rest) = sbcAux .normal rest := by
  induction t generalizing buf with
  | nil => simp [sbcAux]
  | cons c cs ih =>
    have hc : ¬c = '*' := fun h0 => h (h0 ▸ List.mem_cons_self c cs)
    have hcond : ¬(c = '*' ∧ (cs ++ '*' :: '/' :: rest).head? = some '/') := fun h0 => hc h0.1
    simp only [List.cons_append, sbcAux, List.append_eq]
    rw [if_neg hcond]
    exact ih (c :: buf) fun hm => h (List.mem_cons_of_mem _ hm)

theorem stripBoth_dashdash (t : List Char) (h : '\n' ∉ t) :
    stripBlockComments (stripLineComments
        ("SELECT AMOUNT FROM TRANSACTIONS ".data ++ '-' :: '-' :: t)) =
      "SELECT AMOUNT FROM TRANSACTIONS ".data := by
  unfold stripLineComments
  rw [stripLineAux_copy "SELECT AMOUNT FROM TRANSACTIONS ".data ('-' :: '-' :: t) (by decide)]
  rw [stripLineAux_dashdash h, List.append_nil]
  decide

theorem strippedSql_line_comment (c : String)
    (hc : '\n' ∉ c.data.map Char.toUpper) :
    strippedSql ("SELECT amount FROM transactions -- " ++ c) =
      "SELECT AMOUNT FROM TRANSACTIONS ".data := by
  have hmap : ("SELECT amount FROM transactions -- " ++ c).data.map Char.toUpper
      = ("SELECT AMOUNT FROM TRANSACTIONS ".data ++ ['-', '-']) ++
          (' ' :: c.data.map Char.toUpper) := by
    rw [String.data_append, List.map_append]
    rw [show "SELECT amount FROM transactions -- ".data.map Char.toUpper
        = ("SELECT AMOUNT FROM TRANSACTIONS ".data ++ ['-', '-']) ++ [' '] from by decide]
    rw [List.append_assoc, List.singleton_append]
  have hS : ("SELECT AMOUNT FROM TRANSACTIONS ".data ++ ['-', '-'] : List Char)
      = 'S' :: ("ELECT AMOUNT FROM TRANSACTIONS ".data ++ ['-', '-']) := by decide
  unfold strippedSql normalizeSql
  rw [hmap, hS, List.cons_append, pyStrip_cons_nonws (by decide), ← List.cons_append, ← hS]
  rw [pyStripRight_append]
  by_cases hy : pyStripRight (' ' :: c.data.map Char.toUpper) = []
  · rw [if_pos hy]
    rw [show pyStripRight ("SELECT AMOUNT FROM TRANSACTIONS ".data ++ ['-', '-'])
        = "SELECT AMOUNT FROM TRANSACTIONS ".data ++ '-' :: '-' :: [] from by decide]
    exact stripBoth_dashdash [] (by decide)
  · rw [if_neg hy, List.append_assoc]
    have ht : '\n' ∉ ['-', '-'] ++ pyStripRight (' ' :: c.data.map Char.toUpper) := by
      intro hm
      rcases List.mem_append.mp hm with h1 | h1
      · exact absurd h1 (by decide)
      · rcases List.mem_cons.mp (mem_of_mem_pyStripRight h1) with h2 | h2
        · exact absurd h2 (by decide)
        · exact hc h2
    have ht2 : '\n' ∉ pyStripRight (' ' :: c.data.map Char.toUpper) := by
      intro hm
      exact ht (List.mem_append.mpr (Or.inr hm))
    exact stripBoth_dashdash (pyStripRight (' ' :: c.data.map Char.toUpper)) ht2

theorem strippedSql_block_comment (c : String)
    (hdash : '-' ∉ c.data.map Char.toUpper) (hstar : '*' ∉ c.data.map Char.toUpper) :
    strippedSql ("SELECT amount FROM transactions /* " ++ c ++ " */") =
      "SELECT AMOUNT FROM TRANSACTIONS ".data := by
  unfold strippedSql normalizeSql
  rw [String.data_append, String.data_append, List.map_append, List.map_append]
  rw [show "SELECT amount FROM transactions /* ".data.map Char.toUpper
      = "SELECT AMOUNT FROM TRANSACTIONS /* ".data from by decide]
  rw [show " */".data.map Char.toUpper = ([' ', '*'] ++ ['/'] : List Char) from by decide]
  have hS : ("SELECT AMOUNT FROM TRANSACTIONS /* ".data : List Char)
      = 'S' :: "ELECT AMOUNT FROM TRANSACTIONS /* ".data := by decide
  rw [hS, List.cons_append, List.cons_append, pyStrip_cons_nonws (by decide),
    ← List.cons_append, ← List.cons_append, ← hS]
  rw [← List.append_assoc, pyStripRight_append, if_neg (by decide),
    show pyStripRight ['/'] = ['/'] from by decide]
  have hnodash : '-' ∉ ((("SELECT AMOUNT FROM TRANSACTIONS /* ".data ++
      c.data.map Char.toUpper) ++ [' ', '*']) ++ ['/'] : List Char) := by
    intro hm
    rcases List.mem_append.mp hm with h1 | h1
    · rcases List.mem_append.mp h1 with h2 | h2
      · rcases List.mem_append.mp h2 with h3 | h3
        · exact absurd h3 (by decide)
        · exact hdash h3
      · exact absurd h2 (by decide)
    · exact absurd h1 (by decide)
  unfold stripLineComments
  rw [stripLineAux_id hnodash]
  have hshape : ((("SELECT AMOUNT FROM TRANSACTIONS /* ".data ++
        c.data.map Char.toUpper) ++ [' ', '*']) ++ ['/'] : List Char)
      = "SELECT AMOUNT FROM TRANSACTIONS ".data ++
          ('/' :: '*' :: ((' ' :: (c.data.map Char.toUpper ++ [' '])) ++ '*' :: '/' :: [])) := by
    rw [show ("SELECT AMOUNT FROM TRANSACTIONS /* ".data : List Char)
        = "SELECT AMOUNT FROM TRANSACTIONS ".data ++ ['/', '*', ' '] from by decide]
    simp [List.append_assoc]
  rw [hshape]
  unfold stripBlockComments
  rw [sbcAux_copy "SELECT AMOUNT FROM TRANSACTIONS ".data _ (by decide)]
  rw [sbcAux_open]
  rw [sbcAux_inside_skip (' ' :: (c.data.map Char.toUpper ++ [' '])) ['*', '/'] [] ?hst]
  case hst =>
    intro hm
    rcases List.mem_cons.mp hm with h1 | h1
    · exact absurd h1 (by decide)
    · rcases List.mem_append.mp h1 with h2 | h2
      · exact hstar h2
      · exact absurd h2 (by decide)
  simp [sbcAux]

/-- Claim C5: comments are stripped before keyword matching, so a
prohibited keyword appearing only inside a line comment (any content
without a newline) or only inside a block comment (any content without a
dash or a star) does not trigger a block, and the otherwise-allowed
SELECT statement passes. -/
theorem C5_comment_keyword_allowed :
    ∀ c : String,
      ('\n' ∉ c.data.map Char.toUpper →
        validate_query_type ("SELECT amount FROM transactions -- " ++ c) = (true, "")) ∧
      ('-' ∉ c.data.map Char.toUpper → '*' ∉ c.data.map Char.toUpper →
        validate_query_type ("SELECT amount FROM transactions /* " ++ c ++ " */") = (true, "")) := by
  intro c
  constructor
  · intro hc
    unfold validate_query_type
    rw [strippedSql_line_comment c hc]
    decide
  · intro hdash hstar
    unfold validate_query_type
    rw [strippedSql_block_comment c hdash hstar]
    decide

/-- Witness for C5: `DROP TABLE` inside a line comment and `DELETE` inside
a block comment are both allowed through. -/
theorem C5_comment_keyword_allowed_witness :
    validate_query_type ("SELECT amount FROM transactions -- " ++ "DROP TABLE accounts") =
      (true, "") ∧
    validate_query_type ("SELECT amount FROM transactions /* " ++ "DELETE FROM accounts" ++ " */") =
      (true, "") :=
  ⟨(C5_comment_keyword_allowed "DROP TABLE accounts").1 (by decide),
    (C5_comment_keyword_allowed "DELETE FROM accounts").2 (by decide) (by decide)⟩
